import Mathlib

/-!
Verification development for the yt-video-metadata repository.

The repository contains three near-duplicate Streamlit dashboards:
`src/app.py`, `src/app_lite.py` and `src/youtube_fetcher_app.py`.
This file gives a shallow embedding of the channel-resolution,
enumeration, classification, parsing and rendering logic of those files.
Network calls (the googleapiclient service) are modelled as an explicit
environment of fallible lookup functions; Python exceptions are modelled
with `Except`/`Option`; the `while True` pagination loops are modelled
with an explicit fuel parameter (fuel exhaustion is treated as an error,
a conservative stand-in for a non-terminating token chain).

Namespaces: `App` embeds `src/app.py`, `Lite` embeds `src/app_lite.py`,
`YT` embeds `src/youtube_fetcher_app.py`.  Helpers shared by all three
source files (they repeat the same code verbatim) live at top level.
-/

/-- Python truthiness of an optional string value, as used by
`live_details.get('actualEndTime')` style checks in
`src/youtube_fetcher_app.py`: a missing key and an empty string are both
falsy, any non-empty string is truthy. -/
def pyTruthy (o : Option String) : Bool := o.getD "" ≠ ""

/-- Maximal leading run of ASCII digits of a character list, together
with the remainder.  Models the greedy `\d+` of the duration regex
(the API's duration strings use ASCII digits only). -/
def takeDigits : List Char → List Char × List Char
  | [] => ([], [])
  | c :: cs =>
    if c.isDigit then
      let p := takeDigits cs
      (c :: p.1, p.2)
    else ([], c :: cs)

/-- Numeric value of a digit run, as computed by Python's `int` on the
captured group. -/
def digitsVal (ds : List Char) : Nat :=
  ds.foldl (fun n c => n * 10 + (c.toNat - 48)) 0

/-- One optional group `(?:(\d+)X)?` of the duration regex: a greedy
digit run must be immediately followed by the group letter, otherwise
the whole group matches the empty string and consumes nothing.
Returns the captured value (if any) and the rest of the input. -/
def groupNum (letter : Char) (cs : List Char) : Option Nat × List Char :=
  let p := takeDigits cs
  if p.1 = [] then (none, cs)
  else
    match p.2 with
    | c :: rest => if c = letter then (some (digitsVal p.1), rest) else (none, cs)
    | [] => (none, cs)

/-- Model of `re.match(r'PT(?:(\d+)H)?(?:(\d+)M)?(?:(\d+)S)?', s)` as it
is used in all three source files, with the `int(g) if g else 0`
post-processing applied to the three captured groups.  `re.match`
anchors at the start of the string but may match a proper prefix; since
all three groups are optional the match succeeds exactly when the input
starts with `"PT"`.  Returns `some (hours, minutes, seconds)` on a
match and `none` otherwise. -/
def ptMatch (s : String) : Option (Nat × Nat × Nat) :=
  match s.toList with
  | 'P' :: 'T' :: rest =>
    let gh := groupNum 'H' rest
    let gm := groupNum 'M' gh.2
    let gs := groupNum 'S' gm.2
    some (gh.1.getD 0, gm.1.getD 0, gs.1.getD 0)
  | _ => none

/-- Date part of an ISO-8601 timestamp: models
`datetime.fromisoformat(ts.replace('Z', '+00:00')).strftime('%Y-%m-%d')`
for the well-formed `YYYY-MM-DDTHH:MM:SSZ` timestamps delivered by the
API, whose first ten characters are exactly the formatted date. -/
def isoDate (ts : String) : String := ts.take 10

/-- One-decimal rendering of `num / den` with round-half-to-even,
modelling Python's `f"{num/den:.1f}"`.  The Python original divides in
binary floating point before rounding; on the integer inputs used here
the two agree except for ties that only arise from binary rounding
error, and no claim in this development depends on these display-only
fields. -/
def fmt1 (num den : Nat) : String :=
  let scaled := num * 10
  let q := scaled / den
  let r := scaled % den
  let rounded :=
    if 2 * r > den then q + 1
    else if 2 * r < den then q
    else if q % 2 = 0 then q else q + 1
  toString (rounded / 10) ++ "." ++ toString (rounded % 10)

/-- `format_number` as defined identically in `src/app_lite.py` and
`src/youtube_fetcher_app.py`: zero (or NaN, impossible for the `int`
call sites modelled here) renders as `"0"`, then K/M/B suffixes with one
decimal, else the plain integer string. -/
def format_number (num : Nat) : String :=
  if num = 0 then "0"
  else if num ≥ 1000000000 then fmt1 num 1000000000 ++ "B"
  else if num ≥ 1000000 then fmt1 num 1000000 ++ "M"
  else if num ≥ 1000 then fmt1 num 1000 ++ "K"
  else toString num

/-- Zero-padding to (at least) two digits, following the words of the
spec's rendering rule ("seconds and minutes always zero-padded to two
digits").  This is the spec-side counterpart of the `{n:02d}` format
used by the code; kept as a separate definition so the rendering claim
compares the two. -/
def zeroPad2 (n : Nat) : String :=
  if n < 10 then "0" ++ toString n else toString n

/-- Duration rendering as worded by the spec: `H:MM:SS` when hours > 0,
else `M:SS`, seconds and minutes zero-padded to two digits, hours
unpadded. -/
def specDurationFormat (h m s : Nat) : String :=
  if h > 0 then toString h ++ ":" ++ zeroPad2 m ++ ":" ++ zeroPad2 s
  else toString m ++ ":" ++ zeroPad2 s

/-- Statistics sub-dictionary of a video details response; each counter
may be absent (`statistics.get('viewCount', 0)`). -/
structure VideoStatistics where
  viewCount : Option Nat
  likeCount : Option Nat
  commentCount : Option Nat
deriving DecidableEq, Repr

/-- Model of a non-empty `liveStreamingDetails` dictionary: the two
timestamps the classifier inspects, each possibly absent.  A video
without the dictionary (or with an empty one, which is falsy in Python)
is modelled as `none` at the use sites. -/
structure LiveStreamingDetails where
  actualEndTime : Option String
  actualStartTime : Option String
deriving DecidableEq, Repr

/-- Channel summary dictionary built by `get_channel_info` in
`src/app_lite.py` and `src/youtube_fetcher_app.py` (`src/app.py` adds
two more display-only fields that no claim inspects).  The counts are
kept as the strings the API returns, with `'N/A'` as the missing
default, exactly as in the source. -/
structure ChannelInfo where
  title : String
  subscriber_count : String
  video_count : String
  uploads_playlist_id : String
deriving DecidableEq, Repr

/-- Outcome of one upstream lookup in the username-resolution chain:
the call can raise (`err`), return an empty `items` array (`empty`), or
return a first item carrying a channel id (`found`). -/
inductive LookupResult where
  | err
  | empty
  | found (id : String)
deriving DecidableEq, Repr

/-- Environment for `get_channel_id_from_username` (identical in all
three source files): the `forUsername` lookup, the `forHandle` lookup
and the channel search, each keyed by the query string sent. -/
structure ResolveEnv where
  byUsername : String → LookupResult
  byHandle : String → LookupResult
  searchChannel : String → LookupResult

/-- Handle normalization from the second entry of the `methods` list:
`f'@{username}' if not username.startswith('@') else username`. -/
def normalizeHandle (username : String) : String :=
  if username.startsWith "@" then username else "@" ++ username

/-- Lexicographic comparison of character lists by code point,
`charsLe a b = true` iff `a ≤ b`.  This is exactly how Python compares
two `str` values (and therefore how `list.sort` orders the string sort
keys used by the code), and on the fixed-width `YYYY-MM-DD...` keys it
coincides with chronological order, which is how
`pd.to_datetime`-backed `sort_values` orders the pandas variants.
Defined from scratch because the order must evaluate inside the kernel
for the concrete runs below. -/
def charsLe : List Char → List Char → Bool
  | [], _ => true
  | _ :: _, [] => false
  | a :: as, b :: bs =>
    if a.toNat < b.toNat then true
    else if b.toNat < a.toNat then false
    else charsLe as bs

/-- String comparison by code point (see `charsLe`). -/
def strLe (a b : String) : Bool := charsLe a.toList b.toList

theorem charsLe_refl (l : List Char) : charsLe l l = true := by
  induction l with
  | nil => rfl
  | cons a as ih =>
    unfold charsLe
    rw [if_neg (by omega), if_neg (by omega)]
    exact ih

theorem charsLe_total (a b : List Char) (h : charsLe a b = false) :
    charsLe b a = true := by
  induction a generalizing b with
  | nil => exact absurd h (by simp [charsLe])
  | cons x xs ih =>
    cases b with
    | nil => rfl
    | cons y ys =>
      unfold charsLe at h ⊢
      rcases Nat.lt_trichotomy x.toNat y.toNat with hc | hc | hc
      · rw [if_pos hc] at h
        exact Bool.noConfusion h
      · rw [if_neg (by omega), if_neg (by omega)] at h
        rw [if_neg (by omega), if_neg (by omega)]
        exact ih ys h
      · rw [if_pos hc]

theorem charsLe_trans (x y z : List Char) (hxy : charsLe x y = true)
    (hyz : charsLe y z = true) : charsLe x z = true := by
  induction x generalizing y z with
  | nil => rfl
  | cons a as ih =>
    cases y with
    | nil => exact absurd hxy (by simp [charsLe])
    | cons b bs =>
      cases z with
      | nil => exact absurd hyz (by simp [charsLe])
      | cons c cs =>
        unfold charsLe at hxy hyz ⊢
        rcases Nat.lt_trichotomy a.toNat b.toNat with hab | hab | hab
        · rcases Nat.lt_trichotomy b.toNat c.toNat with hbc | hbc | hbc
          · rw [if_pos (hab.trans hbc)]
          · rw [if_pos (hbc ▸ hab)]
          · rw [if_neg (by omega), if_pos hbc] at hyz
            exact Bool.noConfusion hyz
        · rcases Nat.lt_trichotomy b.toNat c.toNat with hbc | hbc | hbc
          · rw [if_pos (by omega)]
          · rw [if_neg (by omega), if_neg (by omega)] at hxy hyz ⊢
            exact ih bs cs hxy hyz
          · rw [if_neg (by omega), if_pos hbc] at hyz
            exact Bool.noConfusion hyz
        · rw [if_neg (by omega), if_pos hab] at hxy
          exact Bool.noConfusion hxy

theorem strLe_refl (s : String) : strLe s s = true := charsLe_refl _

theorem strLe_total (a b : String) (h : strLe a b = false) : strLe b a = true :=
  charsLe_total _ _ h

theorem strLe_trans (a b c : String) (hab : strLe a b = true)
    (hbc : strLe b c = true) : strLe a c = true := charsLe_trans _ _ _ hab hbc

/-- Insertion step of a stable descending sort keyed by a string: the
new element `x` is placed after every already-sorted element with a
strictly greater key, and before the first element whose key is less
than or equal to its own (so before any element with an equal key,
which is what stability demands, `x` being the earlier input element at
every call site).  Together with `sortKeyDesc` below this models both
`list.sort(key=..., reverse=True)` (Python's sort is documented stable,
and `reverse=True` does not reorder ties) and, on the small inputs
evaluated in this file, pandas `sort_values(by=..., ascending=False)`
(whose default quicksort is not guaranteed stable in general, but
coincides with the stable result on the concrete runs below). -/
def insertKeyDesc (key : α → String) (x : α) : List α → List α
  | [] => [x]
  | y :: ys =>
    if strLe (key y) (key x) then x :: y :: ys else y :: insertKeyDesc key x ys

/-- Stable descending sort by a string key (see `insertKeyDesc`): each
element of the input, taken in order, is inserted into the sorted list
of the elements after it.  Any stable sort with the same comparison is
extensionally equal to this one, so insertion sort is a faithful model
of Timsort here. -/
def sortKeyDesc (key : α → String) : List α → List α
  | [] => []
  | x :: xs => insertKeyDesc key x (sortKeyDesc key xs)

theorem perm_insertKeyDesc (key : α → String) (x : α) (l : List α) :
    List.Perm (insertKeyDesc key x l) (x :: l) := by
  induction l with
  | nil => rfl
  | cons y ys ih =>
    unfold insertKeyDesc
    split
    · rfl
    · exact (ih.cons y).trans (List.Perm.swap x y ys)

theorem perm_sortKeyDesc (key : α → String) (l : List α) :
    List.Perm (sortKeyDesc key l) l := by
  induction l with
  | nil => rfl
  | cons x xs ih =>
    exact (perm_insertKeyDesc key x (sortKeyDesc key xs)).trans (ih.cons x)

theorem mem_insertKeyDesc (key : α → String) (x z : α) (l : List α) :
    z ∈ insertKeyDesc key x l ↔ z = x ∨ z ∈ l := by
  have h := (perm_insertKeyDesc key x l).mem_iff (a := z)
  simpa using h

/-- Descending sortedness with respect to the key: every later element
compares less than or equal to every earlier one. -/
def SortedKeyDesc (key : α → String) (l : List α) : Prop :=
  l.Pairwise (fun a b => strLe (key b) (key a) = true)

theorem sortedKeyDesc_insert (key : α → String) (x : α) {l : List α}
    (hl : SortedKeyDesc key l) : SortedKeyDesc key (insertKeyDesc key x l) := by
  induction l with
  | nil => simp [SortedKeyDesc, insertKeyDesc]
  | cons y ys ih =>
    rcases List.pairwise_cons.mp hl with ⟨hy, hys⟩
    unfold insertKeyDesc
    by_cases hc : strLe (key y) (key x) = true
    · rw [if_pos hc]
      refine List.pairwise_cons.mpr ⟨?_, hl⟩
      intro z hz
      rcases List.mem_cons.mp hz with h1 | h1
      · rw [h1]; exact hc
      · exact strLe_trans _ _ _ (hy z h1) hc
    · rw [if_neg hc]
      refine List.pairwise_cons.mpr ⟨?_, ih hys⟩
      intro z hz
      rcases (mem_insertKeyDesc key x z ys).mp hz with h1 | h1
      · rw [h1]; exact strLe_total _ _ (by simpa using hc)
      · exact hy z h1

theorem sortedKeyDesc_sortKeyDesc (key : α → String) (l : List α) :
    SortedKeyDesc key (sortKeyDesc key l) := by
  induction l with
  | nil => simp [SortedKeyDesc, sortKeyDesc]
  | cons x xs ih => exact sortedKeyDesc_insert key x ih

theorem filter_insertKeyDesc (key : α → String) (x : α) (l : List α) (k : String) :
    (insertKeyDesc key x l).filter (fun z => key z == k) =
      if key x == k then x :: l.filter (fun z => key z == k)
      else l.filter (fun z => key z == k) := by
  induction l with
  | nil =>
    by_cases hx : key x = k <;>
      simp [insertKeyDesc, List.filter_cons, List.filter_nil, beq_iff_eq, hx]
  | cons y ys ih =>
    unfold insertKeyDesc
    by_cases hle : strLe (key y) (key x) = true
    · rw [if_pos hle]
      by_cases hx : key x = k <;> simp [List.filter_cons, beq_iff_eq, hx]
    · rw [if_neg hle]
      by_cases hx : key x = k
      · have hyk : ¬ key y = k := by
          intro hyk
          exact hle (hx ▸ hyk ▸ strLe_refl (key y))
        simp [List.filter_cons, ih, beq_iff_eq, hx, hyk]
      · simp [List.filter_cons, ih, beq_iff_eq, hx]

theorem filter_sortKeyDesc (key : α → String) (l : List α) (k : String) :
    (sortKeyDesc key l).filter (fun z => key z == k) =
      l.filter (fun z => key z == k) := by
  induction l with
  | nil => rfl
  | cons x xs ih =>
    unfold sortKeyDesc
    rw [filter_insertKeyDesc]
    cases hx : (key x == k) <;> simp [hx, ih, List.filter_cons]

namespace App

/-- Python's `f"{n:02d}"` on a non-negative integer: zero-padded to a
minimum width of two digits. -/
def fmt02 (n : Nat) : String :=
  if n < 10 then "0" ++ toString n else toString n

/-- `parse_duration` from `src/app.py` lines 121-137 (the body of
`src/app_lite.py` lines 100-115 is identical): match the `PT` regex,
fall back to `"0:00"` on a non-match, otherwise render `H:MM:SS` when
hours > 0 and `M:SS` otherwise. -/
def parse_duration (duration : String) : String :=
  match ptMatch duration with
  | none => "0:00"
  | some (h, m, s) =>
    if h > 0 then toString h ++ ":" ++ fmt02 m ++ ":" ++ fmt02 s
    else toString m ++ ":" ++ fmt02 s

theorem parse_duration_eq (d : String) :
    parse_duration d =
      match ptMatch d with
      | none => "0:00"
      | some (h, m, s) =>
        if h > 0 then toString h ++ ":" ++ fmt02 m ++ ":" ++ fmt02 s
        else toString m ++ ":" ++ fmt02 s := rfl

/-- `get_channel_id_from_username` from `src/app.py` lines 46-77
(repeated verbatim in the other two files): try the `forUsername`
lookup, then the `forHandle` lookup with the handle normalized to a
leading `@`; a raised exception or an empty `items` array falls through
to the next method (`except: continue`).  If both direct methods fail,
fall back to a channel search; an empty search result returns `None`,
and an exception raised by the search is caught by the outer handler,
which reports the error and also returns `None`. -/
def get_channel_id_from_username (env : ResolveEnv) (username : String) : Option String :=
  match env.byUsername username with
  | .found id => some id
  | _ =>
    match env.byHandle (normalizeHandle username) with
    | .found id => some id
    | _ =>
      match env.searchChannel username with
      | .found id => some id
      | _ => none

/-- One entry of a playlist-items page in `src/app.py`: the snippet
fields `get_all_videos` reads. -/
structure PlaylistItem where
  title : String
  videoId : String
  publishedAt : String
  description : String
  thumbnailMediumUrl : Option String
deriving DecidableEq, Repr

/-- One `playlistItems().list` response page: items plus the optional
continuation token. -/
structure Page where
  items : List PlaylistItem
  nextPageToken : Option String
deriving DecidableEq, Repr

/-- Video details entry as consumed by `src/app.py` (duration and
statistics; the snippet part of the response is requested but never
read). -/
structure VideoDetail where
  duration : String
  statistics : VideoStatistics
deriving DecidableEq, Repr

/-- Upstream environment for `get_all_videos` in `src/app.py`.
`channelResolution` abstracts the input-shape dispatch of lines 142-162
(channel-id shape, URL extraction, username chain): it is the channel
id that prologue produces, or `none` when resolution fails.
`channelInfoFetch` abstracts `get_channel_info`, which catches its own
exceptions and returns `None` on any failure.  The two remaining fields
are the raw paginated calls, returning `.error` when the underlying
HTTP call raises. -/
structure Env where
  channelResolution : Option String
  channelInfoFetch : String → Option ChannelInfo
  pageFetch : Option String → Except String Page
  videosFetch : List String → Except String (List VideoDetail)

/-- Recursion worker for `chunk50`, structural on a fuel bounded by the
list length (every step removes at least one element, so the bound is
never hit before the list empties). -/
def chunk50Go : Nat → List String → List (List String)
  | 0, _ => []
  | _, [] => []
  | fuel + 1, a :: rest => (a :: rest).take 50 :: chunk50Go fuel ((a :: rest).drop 50)

/-- Chunks of at most 50 ids, as produced by
`for i in range(0, len(video_ids), 50)` in `get_video_details`. -/
def chunk50 (l : List String) : List (List String) :=
  chunk50Go l.length l

/-- Sequential bulk lookups over the chunks; the first raised exception
aborts the whole call. -/
def collectChunks (env : Env) : List (List String) → Except String (List VideoDetail)
  | [] => .ok []
  | c :: cs =>
    match env.videosFetch c with
    | .error e => .error e
    | .ok ds =>
      match collectChunks env cs with
      | .error e => .error e
      | .ok rest => .ok (ds ++ rest)

/-- `get_video_details` from `src/app.py` lines 103-119: chunked bulk
lookup wrapped in `try/except`; ANY failure is swallowed and the
function returns an empty list instead of propagating the error. -/
def get_video_details (env : Env) (video_ids : List String) : List VideoDetail :=
  match collectChunks env (chunk50 video_ids) with
  | .ok ds => ds
  | .error _ => []

/-- The `video_data` dictionary built for each `(item, details)` pair
of `zip(response['items'], video_details)` in `src/app.py` lines
195-208. -/
structure Row where
  title : String
  video_id : String
  published_at : String
  description : String
  thumbnail_url : String
  duration : String
  view_count : Nat
  like_count : Nat
  comment_count : Nat
  video_url : String
deriving DecidableEq, Repr

/-- Row construction from `src/app.py` lines 195-208, including the
500-character description truncation and the thumbnail default. -/
def mkRow (item : PlaylistItem) (details : VideoDetail) : Row where
  title := item.title
  video_id := item.videoId
  published_at := item.publishedAt
  description :=
    if item.description.length > 500 then item.description.take 500 ++ "..."
    else item.description
  thumbnail_url := item.thumbnailMediumUrl.getD ""
  duration := parse_duration details.duration
  view_count := details.statistics.viewCount.getD 0
  like_count := details.statistics.likeCount.getD 0
  comment_count := details.statistics.commentCount.getD 0
  video_url := "https://youtu.be/" ++ item.videoId

/-- The `while True` pagination loop of `get_all_videos` (`src/app.py`
lines 180-216).  A raised page fetch propagates (to be caught by the
function's outer `except`, discarding everything); the bulk details
call goes through `get_video_details`, whose failures are silently
swallowed, so a failed page contributes zero rows via the `zip`.
`fuel` bounds the number of iterations; running out is modelled as an
error. -/
def fetchLoop (env : Env) : Nat → Option String → List Row → Except String (List Row)
  | 0, _, _ => .error "page limit reached"
  | fuel + 1, token, acc =>
    match env.pageFetch token with
    | .error e => .error e
    | .ok page =>
      let video_ids := page.items.map (fun it => it.videoId)
      let video_details := get_video_details env video_ids
      let acc := acc ++ (page.items.zip video_details).map (fun pr => mkRow pr.1 pr.2)
      match page.nextPageToken with
      | none => .ok acc
      | some t => fetchLoop env fuel (some t) acc

/-- `get_all_videos` from `src/app.py` lines 139-231: resolve the
channel, fetch its info, paginate the uploads playlist, then sort the
accumulated rows by `published_at` descending (`videos.sort(key=...,
reverse=True)`, a stable sort on the full ISO timestamp string).  Any
exception escaping the loop is caught by the outer handler and turned
into the failure pair `(None, None)`, modelled as `none`. -/
def get_all_videos (env : Env) (fuel : Nat) : Option (List Row × ChannelInfo) :=
  match env.channelResolution with
  | none => none
  | some cid =>
    match env.channelInfoFetch cid with
    | none => none
    | some info =>
      match fetchLoop env fuel none [] with
      | .error _ => none
      | .ok videos => some (sortKeyDesc (fun r => r.published_at) videos, info)

/-- Streamlit session state of `src/app.py`: the last-fetch cache. -/
structure SessionState where
  videos_data : Option (List Row)
  channel_info : Option ChannelInfo
deriving DecidableEq, Repr

/-- The fetch-button handler of `main` (`src/app.py` lines 334-340):
the cache is reassigned only under `if videos and channel_info:`.
`videos` is a list, so it is truthy exactly when non-empty;
`channel_info` is a non-empty dictionary on every success, hence always
truthy, and on failure `get_all_videos` returns `(None, None)`, which
fails the test.  The model takes the returned pair (already `none` on
failure) and the current cache. -/
def fetchClick (st : SessionState) (result : Option (List Row × ChannelInfo)) :
    SessionState :=
  match result with
  | none => st
  | some (videos, info) =>
    if videos = [] then st else ⟨some videos, some info⟩

end App

namespace Lite

/-- `parse_duration` from `src/app_lite.py` lines 100-115; the body is
character-for-character the one in `src/app.py`. -/
def parse_duration (duration : String) : String :=
  match ptMatch duration with
  | none => "0:00"
  | some (h, m, s) =>
    if h > 0 then toString h ++ ":" ++ App.fmt02 m ++ ":" ++ App.fmt02 s
    else toString m ++ ":" ++ App.fmt02 s

theorem parse_duration_lite_eq (d : String) :
    parse_duration d =
      match ptMatch d with
      | none => "0:00"
      | some (h, m, s) =>
        if h > 0 then toString h ++ ":" ++ App.fmt02 m ++ ":" ++ App.fmt02 s
        else toString m ++ ":" ++ App.fmt02 s := rfl

/-- One playlist-items entry as read by `src/app_lite.py`. -/
structure PlaylistItem where
  title : String
  publishedAt : String
  videoId : String
deriving DecidableEq, Repr

/-- One `playlistItems().list` response page. -/
structure Page where
  items : List PlaylistItem
  nextPageToken : Option String
deriving DecidableEq, Repr

/-- Video details entry as consumed by `src/app_lite.py`. -/
structure VideoDetail where
  duration : String
  statistics : VideoStatistics
deriving DecidableEq, Repr

/-- Upstream environment for `get_all_videos_fast`; the channel
resolution prologue (lines 133-156, identical to `src/app.py`) is
abstracted to its produced channel id, as in `App.Env`. -/
structure Env where
  channelResolution : Option String
  channelInfoFetch : String → Option ChannelInfo
  pageFetch : Option String → Except String Page
  videosFetch : List String → Except String (List VideoDetail)

/-- The `video_data` dictionary of `src/app_lite.py` lines 186-198.
`Published` is the publish date formatted to day precision
(`strftime('%Y-%m-%d')`), so the full timestamp is not retained. -/
structure Row where
  Title : String
  Published : String
  Duration : String
  Views : Nat
  Views_Formatted : String
  Likes : Nat
  Likes_Formatted : String
  Comments : Nat
  Comments_Formatted : String
  Video_ID : String
  URL : String
deriving DecidableEq, Repr

/-- Row construction from `src/app_lite.py` lines 186-198. -/
def mkRow (item : PlaylistItem) (detail : VideoDetail) : Row where
  Title := item.title
  Published := isoDate item.publishedAt
  Duration := parse_duration detail.duration
  Views := detail.statistics.viewCount.getD 0
  Views_Formatted := format_number (detail.statistics.viewCount.getD 0)
  Likes := detail.statistics.likeCount.getD 0
  Likes_Formatted := format_number (detail.statistics.likeCount.getD 0)
  Comments := detail.statistics.commentCount.getD 0
  Comments_Formatted := format_number (detail.statistics.commentCount.getD 0)
  Video_ID := item.videoId
  URL := "https://youtu.be/" ++ item.videoId

/-- The pagination loop of `get_all_videos_fast` (`src/app_lite.py`
lines 166-205).  Unlike `src/app.py`, the bulk details call is made
directly inside the big `try`, so a failure there also propagates and
aborts the whole fetch. -/
def fetchLoop (env : Env) : Nat → Option String → List Row → Except String (List Row)
  | 0, _, _ => .error "page limit reached"
  | fuel + 1, token, acc =>
    match env.pageFetch token with
    | .error e => .error e
    | .ok page =>
      let video_ids := page.items.map (fun it => it.videoId)
      match env.videosFetch video_ids with
      | .error e => .error e
      | .ok details =>
        let acc := acc ++ (page.items.zip details).map (fun pr => mkRow pr.1 pr.2)
        match page.nextPageToken with
        | none => .ok acc
        | some t => fetchLoop env fuel (some t) acc

/-- `get_all_videos_fast` from `src/app_lite.py` lines 130-221.  After
the loop the code builds `pd.DataFrame(all_videos)` and immediately
evaluates `df['Published_Sort'] = pd.to_datetime(df['Published'])`.
When `all_videos` is empty the DataFrame has no columns at all, so
`df['Published']` raises `KeyError: 'Published'`, which the outer
`except Exception` turns into the failure pair `(None, None)`; the
model therefore maps an empty accumulation to `none`.  A non-empty
accumulation is sorted on the day-precision `Published` column,
descending (`sort_values('Published_Sort', ascending=False)`). -/
def get_all_videos_fast (env : Env) (fuel : Nat) : Option (List Row × ChannelInfo) :=
  match env.channelResolution with
  | none => none
  | some cid =>
    match env.channelInfoFetch cid with
    | none => none
    | some info =>
      match fetchLoop env fuel none [] with
      | .error _ => none
      | .ok all_videos =>
        if all_videos = [] then none
        else some (sortKeyDesc (fun r => r.Published) all_videos, info)

/-- Streamlit session state of `src/app_lite.py`. -/
structure SessionState where
  videos_df : Option (List Row)
  channel_info : Option ChannelInfo
deriving DecidableEq, Repr

/-- The fetch-button handler of `main` (`src/app_lite.py` lines
272-278): the cache is reassigned only under
`if df is not None and channel_info:`, i.e. exactly when the fetch
returned a result pair (the dictionary `channel_info` is always truthy
on success). -/
def fetchClick (st : SessionState) (result : Option (List Row × ChannelInfo)) :
    SessionState :=
  match result with
  | none => st
  | some (df, info) => ⟨some df, some info⟩

end Lite

namespace YT

/-- `parse_duration` from `src/youtube_fetcher_app.py` lines 241-259:
the only variant with the special live check — a missing/empty duration
or the zero-length marker `'P0D'` renders as the live indicator before
the regex is tried; the rest of the body is identical to the other two
files. -/
def parse_duration (duration : String) : String :=
  if duration = "" || duration = "P0D" then "🔴 Live"
  else
    match ptMatch duration with
    | none => "0:00"
    | some (h, m, s) =>
      if h > 0 then toString h ++ ":" ++ App.fmt02 m ++ ":" ++ App.fmt02 s
      else toString m ++ ":" ++ App.fmt02 s

/-- The live-broadcast branch of the classifier
(`src/youtube_fetcher_app.py` lines 300-306), applied when
`liveStreamingDetails` is present and non-empty: an actual end
timestamp wins, then an actual start timestamp, else scheduled. -/
def liveType (d : LiveStreamingDetails) : String :=
  if pyTruthy d.actualEndTime then "🔴 Live (Ended)"
  else if pyTruthy d.actualStartTime then "🔴 Live (Active)"
  else "🔴 Live (Scheduled)"

/-- The short-form adjustment of the classifier
(`src/youtube_fetcher_app.py` lines 308-317): when the raw ISO duration
is non-empty, is not `'P0D'` and matches the `PT` regex, a total length
of at most 60 seconds turns an ordinary `"📹 Video"` into `"⚡ Short"`;
every other video type is left unchanged. -/
def shortAdjust (video_type : String) (duration_iso : String) : String :=
  if duration_iso ≠ "" ∧ duration_iso ≠ "P0D" then
    match ptMatch duration_iso with
    | some (h, m, s) =>
      if h * 3600 + m * 60 + s ≤ 60 ∧ video_type = "📹 Video" then "⚡ Short"
      else video_type
    | none => video_type
  else video_type

/-- Full item classification of `src/youtube_fetcher_app.py` lines
296-317: the live rules first (presence of a non-empty
`liveStreamingDetails` dictionary is modelled by `some`), then the
short-form adjustment on the raw ISO duration. -/
def videoTypeOf (live : Option LiveStreamingDetails) (duration_iso : String) : String :=
  shortAdjust
    (match live with
     | some d => liveType d
     | none => "📹 Video")
    duration_iso

/-- One playlist-items entry as read by `src/youtube_fetcher_app.py`. -/
structure PlaylistItem where
  title : String
  publishedAt : String
  videoId : String
deriving DecidableEq, Repr

/-- One `playlistItems().list` response page. -/
structure UploadsPage where
  items : List PlaylistItem
  nextPageToken : Option String
deriving DecidableEq, Repr

/-- Video details entry as consumed by `src/youtube_fetcher_app.py`
(tags, statistics, duration and the optional live metadata). -/
structure VideoDetail where
  tags : List String
  statistics : VideoStatistics
  duration : String
  liveStreamingDetails : Option LiveStreamingDetails
deriving DecidableEq, Repr

/-- One playlist entry of a `playlists().list` page, with the fields
`get_playlists` reads. -/
structure Playlist where
  channelTitle : String
  title : String
  publishedAt : String
  itemCount : Nat
  description : Option String
  id : String
deriving DecidableEq, Repr

/-- One `playlists().list` response page. -/
structure PlaylistsPage where
  items : List Playlist
  nextPageToken : Option String
deriving DecidableEq, Repr

/-- Upstream environment for `get_all_channel_content`; as in
`App.Env`, `channelResolution` abstracts the input-shape dispatch of
lines 405-421 and `channelInfoFetch` abstracts `get_channel_info`. -/
structure Env where
  channelResolution : Option String
  channelInfoFetch : String → Option ChannelInfo
  uploadsPage : Option String → Except String UploadsPage
  videosList : List String → Except String (List VideoDetail)
  playlistsPage : Option String → Except String PlaylistsPage

/-- The `video_data` / `playlist_data` dictionary shared by
`get_uploaded_videos` and `get_playlists` (`src/youtube_fetcher_app.py`
lines 322-337 and 371-386).  The `Type` column is named `Type'` because
`Type` is reserved in Lean. -/
structure Row where
  Channel_Name : String
  Type' : String
  Title : String
  Published : String
  Duration : String
  Views : Nat
  Views_Formatted : String
  Likes : Nat
  Likes_Formatted : String
  Comments : Nat
  Comments_Formatted : String
  Tags : String
  Content_ID : String
  URL : String
deriving DecidableEq, Repr

/-- Video row construction from `src/youtube_fetcher_app.py` lines
296-337, including the classification and the tag join
(`', '.join(tags) if tags else 'No tags'`). -/
def mkVideoRow (info : ChannelInfo) (item : PlaylistItem) (detail : VideoDetail) : Row where
  Channel_Name := info.title
  Type' := videoTypeOf detail.liveStreamingDetails detail.duration
  Title := item.title
  Published := isoDate item.publishedAt
  Duration := parse_duration detail.duration
  Views := detail.statistics.viewCount.getD 0
  Views_Formatted := format_number (detail.statistics.viewCount.getD 0)
  Likes := detail.statistics.likeCount.getD 0
  Likes_Formatted := format_number (detail.statistics.likeCount.getD 0)
  Comments := detail.statistics.commentCount.getD 0
  Comments_Formatted := format_number (detail.statistics.commentCount.getD 0)
  Tags := if detail.tags = [] then "No tags" else String.intercalate ", " detail.tags
  Content_ID := item.videoId
  URL := "https://youtu.be/" ++ item.videoId

/-- Playlist row construction from `src/youtube_fetcher_app.py` lines
371-386.  Note the two different defaults for the description: the
truncation condition uses `get('description', '')` while both rendered
values use `get('description', 'No description')`. -/
def mkPlaylistRow (p : Playlist) : Row where
  Channel_Name := p.channelTitle
  Type' := "📋 Playlist"
  Title := p.title
  Published := isoDate p.publishedAt
  Duration := toString p.itemCount ++ " videos"
  Views := 0
  Views_Formatted := "N/A"
  Likes := 0
  Likes_Formatted := "N/A"
  Comments := 0
  Comments_Formatted := "N/A"
  Tags :=
    if (p.description.getD "").length > 100 then
      (p.description.getD "No description").take 100 ++ "..."
    else p.description.getD "No description"
  Content_ID := p.id
  URL := "https://youtube.com/playlist?list=" ++ p.id

/-- The pagination loop of `get_uploaded_videos`
(`src/youtube_fetcher_app.py` lines 281-345): page fetch and bulk
details call both live inside the function's `try`, so either failure
propagates out of the loop. -/
def uploadsLoop (env : Env) (info : ChannelInfo) :
    Nat → Option String → List Row → Except String (List Row)
  | 0, _, _ => .error "page limit reached"
  | fuel + 1, token, acc =>
    match env.uploadsPage token with
    | .error e => .error e
    | .ok page =>
      let video_ids := page.items.map (fun it => it.videoId)
      match env.videosList video_ids with
      | .error e => .error e
      | .ok details =>
        let acc := acc ++ (page.items.zip details).map (fun pr => mkVideoRow info pr.1 pr.2)
        match page.nextPageToken with
        | none => .ok acc
        | some t => uploadsLoop env info fuel (some t) acc

/-- `get_uploaded_videos` from `src/youtube_fetcher_app.py` lines
274-351: the whole enumeration is wrapped in `try/except`, and ANY
failure is swallowed — the function reports the error message on the
page and returns an empty list instead of propagating, discarding every
row accumulated so far. -/
def get_uploaded_videos (env : Env) (info : ChannelInfo) (fuel : Nat) : List Row :=
  match uploadsLoop env info fuel none [] with
  | .ok rows => rows
  | .error _ => []

/-- Auto-generated playlist titles excluded by `get_playlists`
(`src/youtube_fetcher_app.py` line 368). -/
def excludedPlaylistTitles : List String := ["Uploads", "Liked videos", "Favorites"]

/-- The pagination loop of `get_playlists` (`src/youtube_fetcher_app.py`
lines 359-394). -/
def playlistsLoop (env : Env) :
    Nat → Option String → List Row → Except String (List Row)
  | 0, _, _ => .error "page limit reached"
  | fuel + 1, token, acc =>
    match env.playlistsPage token with
    | .error e => .error e
    | .ok page =>
      let kept := page.items.filter (fun p => !(excludedPlaylistTitles.contains p.title))
      let acc := acc ++ kept.map mkPlaylistRow
      match page.nextPageToken with
      | none => .ok acc
      | some t => playlistsLoop env fuel (some t) acc

/-- `get_playlists` from `src/youtube_fetcher_app.py` lines 353-400:
like `get_uploaded_videos`, any failure is swallowed and yields an
empty list. -/
def get_playlists (env : Env) (fuel : Nat) : List Row :=
  match playlistsLoop env fuel none [] with
  | .ok rows => rows
  | .error _ => []

/-- The merge step of `get_all_channel_content`
(`src/youtube_fetcher_app.py` lines 429-446): the uploads rows and the
playlist rows are concatenated with `extend` — there is NO
deduplication of any kind — and, when the resulting DataFrame is
non-empty, sorted descending on the day-precision `Published` column. -/
def mergeAndSort (uploaded_videos playlists : List Row) : List Row :=
  let all_content := uploaded_videos ++ playlists
  if all_content = [] then all_content
  else sortKeyDesc (fun r => r.Published) all_content

/-- `get_all_channel_content` from `src/youtube_fetcher_app.py` lines
402-455: resolve the channel, fetch its info, run the uploads pass and
the playlists pass (each of which swallows its own failures), then
merge and sort.  The empty DataFrame is guarded (`if not df.empty:`),
so a channel with no content is returned as a successful empty
result. -/
def get_all_channel_content (env : Env) (fuel : Nat) : Option (List Row × ChannelInfo) :=
  match env.channelResolution with
  | none => none
  | some cid =>
    match env.channelInfoFetch cid with
    | none => none
    | some info =>
      let uploaded_videos := get_uploaded_videos env info fuel
      let playlists := get_playlists env fuel
      some (mergeAndSort uploaded_videos playlists, info)

end YT

/-- A string accepted by the duration regex starts with `"PT"`, so it is
neither empty nor the zero-length marker `"P0D"`. -/
theorem ptMatch_ne_special (s : String) (t : Nat × Nat × Nat) (h : ptMatch s = some t) :
    s ≠ "" ∧ s ≠ "P0D" := by
  constructor <;> rintro rfl
  · rw [show ptMatch "" = none from rfl] at h; exact Option.noConfusion h
  · rw [show ptMatch "P0D" = none from rfl] at h; exact Option.noConfusion h

/-- The short-form adjustment never changes a classification other than
`"📹 Video"`. -/
theorem YT.shortAdjust_ne (vt dur : String) (hne : vt ≠ "📹 Video") :
    YT.shortAdjust vt dur = vt := by
  unfold YT.shortAdjust
  split
  · cases hpt : ptMatch dur with
    | none => rfl
    | some trip =>
      obtain ⟨h, m, s⟩ := trip
      simp [hne]
  · rfl

/-- Claim C4: the duration parser (of `src/youtube_fetcher_app.py`, the
variant with the live check) maps `"PT1H2M3S"` to `"1:02:03"`,
`"PT45S"` to `"0:45"`, `"PT2M"` to `"2:00"`, and maps the zero-length
marker `"P0D"` to the live indicator `"🔴 Live"` rather than a numeric
duration string. -/
theorem C4_duration_parsing :
    YT.parse_duration "PT1H2M3S" = "1:02:03" ∧
    YT.parse_duration "PT45S" = "0:45" ∧
    YT.parse_duration "PT2M" = "2:00" ∧
    YT.parse_duration "P0D" = "🔴 Live" ∧
    YT.parse_duration "P0D" ≠ "0:00" := by
  refine ⟨?_, ?_, ?_, ?_, ?_⟩ <;> decide

/-- Claim C5: classification follows the ordered rules — live metadata
with a (truthy) end timestamp yields Live (Ended); live metadata with a
start but no end yields Live (Active); live metadata with neither
yields Live (Scheduled); otherwise an item whose duration parses to at
most 60 total seconds classifies as Short and one with 61 or more
seconds classifies as Video. -/
theorem C5_classification_rules :
    (∀ (d : LiveStreamingDetails) (dur : String), pyTruthy d.actualEndTime = true →
      YT.videoTypeOf (some d) dur = "🔴 Live (Ended)") ∧
    (∀ (d : LiveStreamingDetails) (dur : String), pyTruthy d.actualEndTime = false →
      pyTruthy d.actualStartTime = true →
      YT.videoTypeOf (some d) dur = "🔴 Live (Active)") ∧
    (∀ (d : LiveStreamingDetails) (dur : String), pyTruthy d.actualEndTime = false →
      pyTruthy d.actualStartTime = false →
      YT.videoTypeOf (some d) dur = "🔴 Live (Scheduled)") ∧
    (∀ (dur : String) (h m s : Nat), ptMatch dur = some (h, m, s) →
      h * 3600 + m * 60 + s ≤ 60 → YT.videoTypeOf none dur = "⚡ Short") ∧
    (∀ (dur : String) (h m s : Nat), ptMatch dur = some (h, m, s) →
      61 ≤ h * 3600 + m * 60 + s → YT.videoTypeOf none dur = "📹 Video") := by
  refine ⟨?_, ?_, ?_, ?_, ?_⟩
  · intro d dur hEnd
    unfold YT.videoTypeOf
    show YT.shortAdjust (YT.liveType d) dur = _
    rw [show YT.liveType d = "🔴 Live (Ended)" by unfold YT.liveType; rw [if_pos hEnd]]
    exact YT.shortAdjust_ne _ _ (by decide)
  · intro d dur hEnd hStart
    unfold YT.videoTypeOf
    show YT.shortAdjust (YT.liveType d) dur = _
    rw [show YT.liveType d = "🔴 Live (Active)" by
      unfold YT.liveType
      rw [if_neg (by simp [hEnd]), if_pos hStart]]
    exact YT.shortAdjust_ne _ _ (by decide)
  · intro d dur hEnd hStart
    unfold YT.videoTypeOf
    show YT.shortAdjust (YT.liveType d) dur = _
    rw [show YT.liveType d = "🔴 Live (Scheduled)" by
      unfold YT.liveType
      rw [if_neg (by simp [hEnd]), if_neg (by simp [hStart])]]
    exact YT.shortAdjust_ne _ _ (by decide)
  · intro dur h m s hpt hle
    unfold YT.videoTypeOf YT.shortAdjust
    rw [if_pos (ptMatch_ne_special dur _ hpt), hpt]
    simp [hle]
  · intro dur h m s hpt hge
    unfold YT.videoTypeOf YT.shortAdjust
    rw [if_pos (ptMatch_ne_special dur _ hpt), hpt]
    simp
    omega

/-- Witness for C5: an ended broadcast classifies Live (Ended) even at
30 seconds; a plain 60-second item is a Short; a plain 61-second item
is a Video. -/
theorem C5_classification_rules_witness :
    YT.videoTypeOf (some ⟨some "2024-01-02T00:00:00Z", some "2024-01-01T00:00:00Z"⟩)
      "PT30S" = "🔴 Live (Ended)" ∧
    YT.videoTypeOf none "PT1M" = "⚡ Short" ∧
    YT.videoTypeOf none "PT61S" = "📹 Video" :=
  ⟨C5_classification_rules.1 _ "PT30S" (by decide),
   C5_classification_rules.2.2.2.1 "PT1M" 0 1 0 (by decide) (by decide),
   C5_classification_rules.2.2.2.2 "PT61S" 0 0 61 (by decide) (by decide)⟩

/-- Claim C6: the resolution chain tries the username lookup, then the
handle lookup (query normalized to a leading `@`), then the channel
search, in that fixed order; a failed sub-lookup (exception or empty
result) is swallowed and the next method attempted, and `None` comes
back only when no method found an id. -/
theorem C6_resolution_chain :
    (∀ (env : ResolveEnv) (u id : String), env.byUsername u = .found id →
      App.get_channel_id_from_username env u = some id) ∧
    (∀ (env : ResolveEnv) (u id : String),
      (env.byUsername u = .err ∨ env.byUsername u = .empty) →
      env.byHandle (normalizeHandle u) = .found id →
      App.get_channel_id_from_username env u = some id) ∧
    (∀ (env : ResolveEnv) (u id : String),
      (env.byUsername u = .err ∨ env.byUsername u = .empty) →
      (env.byHandle (normalizeHandle u) = .err ∨
        env.byHandle (normalizeHandle u) = .empty) →
      env.searchChannel u = .found id →
      App.get_channel_id_from_username env u = some id) ∧
    (∀ (env : ResolveEnv) (u : String),
      App.get_channel_id_from_username env u = none →
      (∀ id, env.byUsername u ≠ .found id) ∧
      (∀ id, env.byHandle (normalizeHandle u) ≠ .found id) ∧
      (∀ id, env.searchChannel u ≠ .found id)) := by
  refine ⟨?_, ?_, ?_, ?_⟩
  · intro env u id h
    unfold App.get_channel_id_from_username
    rw [h]
  · intro env u id h1 h2
    unfold App.get_channel_id_from_username
    rcases h1 with h1 | h1 <;> rw [h1, h2]
  · intro env u id h1 h2 h3
    unfold App.get_channel_id_from_username
    rcases h1 with h1 | h1 <;> rcases h2 with h2 | h2 <;> rw [h1, h2, h3]
  · intro env u h
    unfold App.get_channel_id_from_username at h
    refine ⟨?_, ?_, ?_⟩ <;> intro id heq
    · rw [heq] at h
      exact Option.noConfusion h
    · cases hu : env.byUsername u <;> rw [hu] at h <;> simp [heq] at h
    · cases hu : env.byUsername u <;> rw [hu] at h <;>
        first
        | exact Option.noConfusion h
        | (cases hh : env.byHandle (normalizeHandle u) <;> rw [hh] at h <;>
            simp [heq] at h)

/-- Concrete resolution environment: the username lookup raises, the
handle lookup succeeds, the search would return empty. -/
def envC6 : ResolveEnv :=
  ⟨fun _ => .err, fun _ => .found "UChandlehit0000000000000", fun _ => .empty⟩

/-- Witness for C6: with a failing username lookup and a succeeding
handle lookup, the result is the handle lookup's id. -/
theorem C6_resolution_chain_witness :
    envC6.byUsername "alice" = .err ∧
    App.get_channel_id_from_username envC6 "alice" =
      some "UChandlehit0000000000000" :=
  ⟨rfl, C6_resolution_chain.2.1 envC6 "alice" "UChandlehit0000000000000"
    (Or.inl rfl) rfl⟩

/-- Claim C7: every string rendered by the duration parsers of
`src/app.py` and `src/app_lite.py` has the spec's shape — `H:MM:SS`
when hours > 0 and `M:SS` otherwise, minutes and seconds zero-padded to
two digits, hours unpadded (the `"0:00"` fallback is `M:SS` with zero
minutes and seconds). -/
theorem C7_duration_rendering :
    (∀ d : String, ∃ h m s : Nat, App.parse_duration d = specDurationFormat h m s) ∧
    (∀ d : String, ∃ h m s : Nat, Lite.parse_duration d = specDurationFormat h m s) := by
  constructor
  · intro d
    rw [App.parse_duration_eq]
    cases hpt : ptMatch d with
    | none => exact ⟨0, 0, 0, by decide⟩
    | some trip =>
      obtain ⟨h, m, s⟩ := trip
      exact ⟨h, m, s, by simp [specDurationFormat, App.fmt02, zeroPad2]⟩
  · intro d
    rw [Lite.parse_duration_lite_eq]
    cases hpt : ptMatch d with
    | none => exact ⟨0, 0, 0, by decide⟩
    | some trip =>
      obtain ⟨h, m, s⟩ := trip
      exact ⟨h, m, s, by simp [specDurationFormat, App.fmt02, zeroPad2]⟩

/-- Claim C10: the duration parsers of `src/app.py` and
`src/app_lite.py` (the variants without the special live check) are
total — modelled as total Lean functions `String → String` — and return
the fallback `"0:00"` on every input the `PT` regex does not match,
including `"P0D"` and the empty string. -/
theorem C10_parser_fallback :
    (∀ s : String, ptMatch s = none → App.parse_duration s = "0:00") ∧
    (∀ s : String, ptMatch s = none → Lite.parse_duration s = "0:00") ∧
    App.parse_duration "P0D" = "0:00" ∧ App.parse_duration "" = "0:00" ∧
    Lite.parse_duration "P0D" = "0:00" ∧ Lite.parse_duration "" = "0:00" := by
  refine ⟨?_, ?_, by decide, by decide, by decide, by decide⟩ <;>
    intro s h
  · rw [App.parse_duration_eq, h]
  · rw [Lite.parse_duration_lite_eq, h]

/-- Witness for C10: a string that is not an ISO duration at all falls
back to `"0:00"`. -/
theorem C10_parser_fallback_witness :
    ptMatch "not a duration" = none ∧ App.parse_duration "not a duration" = "0:00" :=
  ⟨by decide, C10_parser_fallback.1 "not a duration" (by decide)⟩

/-- Claim C9: the last-fetch cache is mutated only by a successful
fetch; the mutation replaces both fields together, wholesale,
independent of the previous cache contents; a fetch that failed (the
handlers return the `(None, None)` pair, modelled `none`) leaves the
cache completely unchanged.  Stated for both `src/app.py`
(`st.session_state.videos_data` / `channel_info`, guarded by
`if videos and channel_info:`) and `src/app_lite.py`
(`st.session_state.videos_df` / `channel_info`, guarded by
`if df is not None and channel_info:`). -/
theorem C9_cache_replacement :
    (∀ st : App.SessionState, App.fetchClick st none = st) ∧
    (∀ (st : App.SessionState) (v : List App.Row) (i : ChannelInfo), v ≠ [] →
      App.fetchClick st (some (v, i)) = ⟨some v, some i⟩) ∧
    (∀ (st : App.SessionState) (r : Option (List App.Row × ChannelInfo)),
      App.fetchClick st r = st ∨
      ∃ v i, r = some (v, i) ∧ App.fetchClick st r = ⟨some v, some i⟩) ∧
    (∀ st : Lite.SessionState, Lite.fetchClick st none = st) ∧
    (∀ (st : Lite.SessionState) (df : List Lite.Row) (i : ChannelInfo),
      Lite.fetchClick st (some (df, i)) = ⟨some df, some i⟩) := by
  refine ⟨fun st => rfl, ?_, ?_, fun st => rfl, fun st df i => rfl⟩
  · intro st v i hv
    show (if v = [] then st else ⟨some v, some i⟩) = _
    rw [if_neg hv]
  · intro st r
    match r with
    | none => exact Or.inl rfl
    | some (v, i) =>
      by_cases hv : v = []
      · exact Or.inl (by
          show (if v = [] then st else ⟨some v, some i⟩) = st
          rw [if_pos hv])
      · exact Or.inr ⟨v, i, rfl, by
          show (if v = [] then st else ⟨some v, some i⟩) = _
          rw [if_neg hv]⟩

/-- Sample objects used by the C9 witness. -/
def sampleInfo : ChannelInfo :=
  ⟨"Sample Channel", "1000", "1", "UUsample00000000000000"⟩

/-- Sample row for the C9 witness. -/
def sampleAppRow : App.Row :=
  ⟨"A video", "vid00000001", "2024-01-01T00:00:00Z", "hello", "",
    "0:45", 10, 2, 1, "https://youtu.be/vid00000001"⟩

/-- Witness for C9: a successful non-empty fetch overwrites a
previously populated cache wholesale. -/
theorem C9_cache_replacement_witness :
    ([sampleAppRow] ≠ ([] : List App.Row)) ∧
    App.fetchClick ⟨some [], some sampleInfo⟩ (some ([sampleAppRow], sampleInfo)) =
      ⟨some [sampleAppRow], some sampleInfo⟩ :=
  ⟨by decide, C9_cache_replacement.2.1 ⟨some [], some sampleInfo⟩ [sampleAppRow]
    sampleInfo (by decide)⟩

theorem chunk50Go_nil (n : Nat) : App.chunk50Go n [] = [] := by
  cases n <;> rfl

/-- A non-empty id list of at most 50 entries forms a single chunk. -/
theorem chunk50_single (ids : List String) (hne : ids ≠ []) (hlen : ids.length ≤ 50) :
    App.chunk50 ids = [ids] := by
  match ids, hne with
  | a :: rest, _ =>
    show App.chunk50Go (a :: rest).length (a :: rest) = [a :: rest]
    rw [show (a :: rest).length = rest.length + 1 from rfl]
    unfold App.chunk50Go
    rw [List.take_of_length_le hlen, List.drop_eq_nil_of_le hlen, chunk50Go_nil]

/-- Claim C1 counterexample environment: the uploads pass returns a
single video whose id `"XOVERLAP0001"` also appears as the id of a
playlist returned by the playlists pass. -/
def infoC1 : ChannelInfo := ⟨"C1 channel", "500", "1", "UUc1000000000000000000"⟩

def envC1 : YT.Env where
  channelResolution := some "UCc1000000000000000000xx"
  channelInfoFetch := fun _ => some infoC1
  uploadsPage := fun t =>
    match t with
    | none => .ok ⟨[⟨"Overlapping item", "2024-03-01T10:00:00Z", "XOVERLAP0001"⟩], none⟩
    | some _ => .error "unexpected token"
  videosList := fun ids =>
    if ids = ["XOVERLAP0001"] then
      .ok [⟨[], ⟨some 5, some 1, some 0⟩, "PT10M", none⟩]
    else .error "unexpected ids"
  playlistsPage := fun t =>
    match t with
    | none => .ok ⟨[⟨"C1 channel", "Reruns", "2024-02-01T00:00:00Z", 3, none,
        "XOVERLAP0001"⟩], none⟩
    | some _ => .error "unexpected token"

/-- Claim C1 counterexample: `get_all_channel_content` performs no
deduplication — when the uploads pass and the playlists pass yield the
same contentId, the merged result contains that id TWICE, refuting
"each contentId occurs exactly once in the final item list". -/
theorem C1_counterexample :
    (YT.get_all_channel_content envC1 2).map
      (fun p => (p.1.filter (fun r => r.Content_ID == "XOVERLAP0001")).length) =
      some 2 := by decide

/-- Claim C1, amended: the merge step of `get_all_channel_content` is
plain concatenation of the uploads rows and the playlist rows followed
by a sort — no deduplication is performed, so the merged contentIds are
exactly a permutation of the concatenated sources' contentIds, and each
contentId occurs exactly once precisely when the two sources together
list it once (which the two passes do not guarantee on overlap). -/
theorem C1_merge_permutation :
    ∀ (uploads playlists : List YT.Row),
      List.Perm ((YT.mergeAndSort uploads playlists).map (fun r => r.Content_ID))
        ((uploads ++ playlists).map (fun r => r.Content_ID)) ∧
      (((uploads ++ playlists).map (fun r => r.Content_ID)).Nodup →
        ((YT.mergeAndSort uploads playlists).map (fun r => r.Content_ID)).Nodup) := by
  intro uploads playlists
  have hperm : List.Perm (YT.mergeAndSort uploads playlists) (uploads ++ playlists) := by
    show List.Perm
      (if uploads ++ playlists = [] then uploads ++ playlists
       else sortKeyDesc (fun r => r.Published) (uploads ++ playlists))
      (uploads ++ playlists)
    split
    · exact List.Perm.refl _
    · exact perm_sortKeyDesc _ _
  refine ⟨hperm.map _, fun hnd => ?_⟩
  exact ((hperm.map _).nodup_iff).mpr hnd

/-- Rows used by the C1 witness: one uploads-sourced row and one
playlist-sourced row with distinct contentIds. -/
def rowC1u : YT.Row :=
  YT.mkVideoRow infoC1 ⟨"A video", "2024-01-02T00:00:00Z", "idAAA001"⟩
    ⟨[], ⟨none, none, none⟩, "PT2M", none⟩

def rowC1p : YT.Row :=
  YT.mkPlaylistRow ⟨"C1 channel", "A list", "2024-01-01T00:00:00Z", 2, none, "idBBB002"⟩

/-- Witness for C1 (amended): with disjoint source ids the merged
result's contentIds are duplicate-free. -/
theorem C1_merge_permutation_witness :
    (([rowC1u] ++ [rowC1p]).map (fun r => r.Content_ID)).Nodup ∧
    ((YT.mergeAndSort [rowC1u] [rowC1p]).map (fun r => r.Content_ID)).Nodup :=
  ⟨by decide, (C1_merge_permutation [rowC1u] [rowC1p]).2 (by decide)⟩

/-- Channel info shared by the C2 environments. -/
def infoC2 : ChannelInfo := ⟨"C2 channel", "10", "2", "UUc2000000000000000000"⟩

/-- First-page item and its details for the C2 counterexample. -/
def itemC2a : App.PlaylistItem := ⟨"first", "idA00001", "2024-05-01T00:00:00Z", "", none⟩

def detC2a : App.VideoDetail := ⟨"PT45S", ⟨some 100, some 5, some 1⟩⟩

/-- Claim C2 counterexample environment: both page fetches succeed, the
bulk details lookup succeeds for the first page and raises (quota) for
the second. -/
def envC2 : App.Env where
  channelResolution := some "UCc2000000000000000000xx"
  channelInfoFetch := fun _ => some infoC2
  pageFetch := fun t =>
    match t with
    | none => .ok ⟨[itemC2a], some "page2"⟩
    | some "page2" => .ok ⟨[⟨"second", "idB00002", "2024-04-01T00:00:00Z", "", none⟩], none⟩
    | some _ => .error "unexpected token"
  videosFetch := fun ids =>
    if ids = ["idA00001"] then .ok [detC2a] else .error "quota exceeded"

/-- Claim C2 counterexample: in `src/app.py` a failing bulk details
lookup does NOT abort the enumeration — `get_video_details` swallows
the exception and returns an empty list, the affected page contributes
no rows via the `zip`, and the fetch still completes successfully,
returning a partial item list (here: the first page's single row,
missing the second page entirely). -/
theorem C2_counterexample :
    envC2.videosFetch ["idB00002"] = .error "quota exceeded" ∧
    App.get_all_videos envC2 3 = some ([App.mkRow itemC2a detC2a], infoC2) :=
  ⟨rfl, by decide⟩

/-- Claim C2, amended: a failing PAGE fetch aborts the enumeration of
`src/app.py` at ANY point of the pagination — whatever rows have been
accumulated so far, the exception escapes the loop (first conjunct: the
loop step returns the error regardless of the accumulated `acc`), an
erroring loop makes the whole fetch return the failure pair (second
conjunct: every accumulated row is discarded, nothing partial is
returned); but a failing bulk DETAILS lookup is swallowed inside
`get_video_details`, which returns an empty list, so the page
contributes no items and the enumeration continues (and can therefore
return a partial list as a success, as the counterexample shows). -/
theorem C2_error_policy_amended :
    (∀ (env : App.Env) (fuel : Nat) (token : Option String) (acc : List App.Row)
      (e : String), env.pageFetch token = .error e →
      App.fetchLoop env (fuel + 1) token acc = .error e) ∧
    (∀ (env : App.Env) (cid : String) (info : ChannelInfo) (e : String) (fuel : Nat),
      env.channelResolution = some cid → env.channelInfoFetch cid = some info →
      App.fetchLoop env fuel none [] = .error e →
      App.get_all_videos env fuel = none) ∧
    (∀ (env : App.Env) (ids : List String) (e : String),
      ids ≠ [] → ids.length ≤ 50 → env.videosFetch ids = .error e →
      App.get_video_details env ids = []) := by
  refine ⟨?_, ?_, ?_⟩
  · intro env fuel token acc e h
    unfold App.fetchLoop
    rw [h]
  · intro env cid info e fuel h1 h2 hl
    simp [App.get_all_videos, h1, h2, hl]
  · intro env ids e hne hlen hf
    have hcc : App.collectChunks env [ids] = .error e := by
      unfold App.collectChunks
      rw [hf]
    simp [App.get_video_details, chunk50_single ids hne hlen, hcc]

/-- Environment for the C2 witness: the first page succeeds (one item,
with a continuation token), the SECOND page fetch raises — so the
failure hits after a row has already been accumulated. -/
def envC2w : App.Env where
  channelResolution := some "UCc2w00000000000000000xx"
  channelInfoFetch := fun _ => some infoC2
  pageFetch := fun t =>
    match t with
    | none => .ok ⟨[itemC2a], some "page2"⟩
    | some _ => .error "network down"
  videosFetch := fun ids =>
    if ids = ["idA00001"] then .ok [detC2a] else .error "network down"

/-- Witness for C2 (amended): in a run whose first page succeeded (its
row sits in the accumulator) and whose second page fetch raises, the
loop step at the second page aborts with the error even though its
accumulator is non-empty, the whole loop from the start errors, and the
fetch returns the failure pair — the accumulated first-page row is
discarded.  The details-swallowing conjunct is exercised on a failing
single-chunk lookup. -/
theorem C2_error_policy_amended_witness :
    envC2w.pageFetch (some "page2") = .error "network down" ∧
    App.fetchLoop envC2w 1 (some "page2") [App.mkRow itemC2a detC2a] =
      .error "network down" ∧
    App.fetchLoop envC2w 3 none [] = .error "network down" ∧
    App.get_all_videos envC2w 3 = none ∧
    App.get_video_details envC2w ["idB00002"] = [] :=
  ⟨rfl,
   C2_error_policy_amended.1 envC2w 0 (some "page2") [App.mkRow itemC2a detC2a]
     "network down" rfl,
   rfl,
   C2_error_policy_amended.2.1 envC2w "UCc2w00000000000000000xx" infoC2
     "network down" 3 rfl rfl rfl,
   C2_error_policy_amended.2.2 envC2w ["idB00002"] "network down" (by decide)
     (by decide) rfl⟩

/-- Claim C3 counterexample environment for `src/app_lite.py`: one page
with two items published on the SAME day, the earlier timestamp first.
The stored `Published` column keeps only the date
(`strftime('%Y-%m-%d')`), so the sort key ties and the pandas sort
leaves the pair in input order — which is ascending, not descending, in
the full `publishedAt` timestamps. -/
def infoC3 : ChannelInfo := ⟨"C3 channel", "42", "2", "UUc3000000000000000000"⟩

def itemC3old : Lite.PlaylistItem := ⟨"older-same-day", "2024-01-05T08:00:00Z", "idOld001"⟩

def itemC3new : Lite.PlaylistItem := ⟨"newer-same-day", "2024-01-05T20:00:00Z", "idNew002"⟩

def detC3 : Lite.VideoDetail := ⟨"PT3M", ⟨some 7, some 1, some 1⟩⟩

def envC3c : Lite.Env where
  channelResolution := some "UCc3000000000000000000xx"
  channelInfoFetch := fun _ => some infoC3
  pageFetch := fun t =>
    match t with
    | none => .ok ⟨[itemC3old, itemC3new], none⟩
    | some _ => .error "unexpected token"
  videosFetch := fun ids =>
    if ids = ["idOld001", "idNew002"] then .ok [detC3, detC3]
    else .error "unexpected ids"

/-- Claim C3 counterexample: in `src/app_lite.py` (and likewise in
`src/youtube_fetcher_app.py`) the sort key is the publish DATE
truncated to day precision, not `publishedAt`.  Here the successful
result lists `"older-same-day"` (published 08:00) before
`"newer-same-day"` (published 20:00 of the same day), so the final item
list is NOT sorted by `publishedAt` descending: the second conjunct
shows the first output item's full timestamp is strictly smaller. -/
theorem C3_counterexample :
    (Lite.get_all_videos_fast envC3c 1).map (fun p => p.1.map (fun r => r.Title)) =
      some ["older-same-day", "newer-same-day"] ∧
    strLe itemC3new.publishedAt itemC3old.publishedAt = false := by
  refine ⟨by decide, by decide⟩

/-- Claim C3, amended: in `src/app.py` the claim holds as stated — the
final list of a successful enumeration is the stable descending sort,
by the full `published_at` timestamp string, of the pre-sort
accumulation: it is pairwise descending, and the items of each equal
`published_at` class appear in exactly their pre-sort order (the filter
characterization of stability).  In the two pandas variants the sort
key is the day-truncated date instead, so ordering by `publishedAt`
holds only up to day precision (see the counterexample) and tie order
is additionally at the mercy of pandas' default unstable quicksort. -/
theorem C3_sorting_amended :
    ∀ (env : App.Env) (fuel : Nat) (vs : List App.Row) (info : ChannelInfo),
      App.get_all_videos env fuel = some (vs, info) →
      ∃ raw, App.fetchLoop env fuel none [] = .ok raw ∧
        vs = sortKeyDesc (fun r => r.published_at) raw ∧
        List.Pairwise (fun a b => strLe b.published_at a.published_at = true) vs ∧
        ∀ k, vs.filter (fun r => r.published_at == k) =
          raw.filter (fun r => r.published_at == k) := by
  intro env fuel vs info h
  unfold App.get_all_videos at h
  rcases hres : env.channelResolution with _ | cid
  · rw [hres] at h
    simp at h
  · rw [hres] at h
    dsimp only [] at h
    rcases hinfo : env.channelInfoFetch cid with _ | info2
    · rw [hinfo] at h
      simp at h
    · rw [hinfo] at h
      dsimp only [] at h
      cases hloop : App.fetchLoop env fuel none [] with
      | error e =>
        rw [hloop] at h
        simp at h
      | ok raw =>
        rw [hloop] at h
        dsimp only [] at h
        simp only [Option.some.injEq, Prod.mk.injEq] at h
        obtain ⟨hvs, _⟩ := h
        refine ⟨raw, rfl, hvs.symm, ?_, ?_⟩
        · rw [← hvs]
          exact sortedKeyDesc_sortKeyDesc (fun r => r.published_at) raw
        · intro k
          rw [← hvs]
          exact filter_sortKeyDesc (fun r => r.published_at) raw k

/-- Environment for the C3 witness: a single successful page with one
item. -/
def itemC3w : App.PlaylistItem := ⟨"w", "idW00001", "2024-06-01T00:00:00Z", "", none⟩

def detC3w : App.VideoDetail := ⟨"PT1M2S", ⟨some 1, none, none⟩⟩

def envC3w : App.Env where
  channelResolution := some "UCc3w00000000000000000xx"
  channelInfoFetch := fun _ => some infoC3
  pageFetch := fun t =>
    match t with
    | none => .ok ⟨[itemC3w], none⟩
    | some _ => .error "unexpected token"
  videosFetch := fun ids =>
    if ids = ["idW00001"] then .ok [detC3w] else .error "unexpected ids"

/-- Witness for C3 (amended): a concrete successful run of
`src/app.py`'s enumeration together with the sortedness and stability
conclusions at that run. -/
theorem C3_sorting_amended_witness :
    App.get_all_videos envC3w 1 = some ([App.mkRow itemC3w detC3w], infoC3) ∧
    (∃ raw, App.fetchLoop envC3w 1 none [] = .ok raw ∧
      [App.mkRow itemC3w detC3w] = sortKeyDesc (fun r => r.published_at) raw ∧
      List.Pairwise (fun a b => strLe b.published_at a.published_at = true)
        [App.mkRow itemC3w detC3w] ∧
      ∀ k, [App.mkRow itemC3w detC3w].filter (fun r => r.published_at == k) =
        raw.filter (fun r => r.published_at == k)) :=
  ⟨by decide, C3_sorting_amended envC3w 1 [App.mkRow itemC3w detC3w] infoC3 (by decide)⟩

/-- Claim C8 environment: resolution succeeds, the uploads playlist
returns a single page with zero items (and, for the
`youtube_fetcher_app` variant, so does the playlists listing). -/
def infoC8 : ChannelInfo := ⟨"C8 channel", "3", "0", "UUc8000000000000000000"⟩

def envC8lite : Lite.Env where
  channelResolution := some "UCc8000000000000000000xx"
  channelInfoFetch := fun _ => some infoC8
  pageFetch := fun t =>
    match t with
    | none => .ok ⟨[], none⟩
    | some _ => .error "unexpected token"
  videosFetch := fun ids =>
    if ids = [] then .ok [] else .error "unexpected ids"

def envC8yt : YT.Env where
  channelResolution := some "UCc8000000000000000000xx"
  channelInfoFetch := fun _ => some infoC8
  uploadsPage := fun t =>
    match t with
    | none => .ok ⟨[], none⟩
    | some _ => .error "unexpected token"
  videosList := fun ids =>
    if ids = [] then .ok [] else .error "unexpected ids"
  playlistsPage := fun t =>
    match t with
    | none => .ok ⟨[], none⟩
    | some _ => .error "unexpected token"

/-- Claim C8: on a channel whose upload list yields zero items,
`src/youtube_fetcher_app.py` (which guards `if not df.empty:`) returns
a SUCCESSFUL fetch with an empty item list — but `src/app_lite.py`
builds `pd.DataFrame([])`, which has no columns, so its unconditional
`df['Published_Sort'] = pd.to_datetime(df['Published'])` raises
`KeyError: 'Published'` and the fetch returns the FAILURE pair instead.
The claim (and the spec's EmptyChannel policy) is the evident intent;
the missing empty-guard in `src/app_lite.py` is a code bug. -/
theorem C8_empty_channel_eval :
    Lite.get_all_videos_fast envC8lite 1 = none ∧
    YT.get_all_channel_content envC8yt 1 = some ([], infoC8) := by
  refine ⟨by decide, by decide⟩
